import Mathlib

/-
  Shallow embedding of the auth/session core of the
  TeamVortexSoftware/vortex-react-provider package.

  The embedded code lives in src/VortexProvider.tsx (reducer, refreshJwt,
  clearAuth, apiCall, contextValue) and src/hooks/useInvitations.ts (the
  loading/error key scheme of the stateful invitation facade).

  Modelling conventions:
  - `string | null` fields become `Option String`; JS `Error` values are
    modelled by their message string.
  - Machine numbers in the backoff arithmetic are modelled as `Nat`
    (delays, multipliers and retry counts are small non-negative integers).
  - The single mutable timer ref (`refreshTimerRef`) together with the set
    of armed-but-unfired timers is modelled explicitly, so that
    `setTimeout` / `clearTimeout` become operations on a timer system.
  - `JSON.parse(atob(segment))` is a platform primitive that throws on any
    malformed input; it is modelled as an arbitrary partial function
    `String → Option JwtPayload` supplied as a parameter.
-/

/-- Entry of `AuthenticatedUser.identifiers` (types.ts): `{type, value}`. -/
structure Identifier where
  idType : String
  value : String
deriving Repr, DecidableEq

/-- Entry of `AuthenticatedUser.groups` (types.ts):
`{type, id?, groupId?, name}`. -/
structure GroupObj where
  groupType : String
  id : Option String
  groupId : Option String
  name : String
deriving Repr, DecidableEq

/-- `AuthenticatedUser` as built by `refreshJwt` in VortexProvider.tsx
(lines 155-163); every field is copied from the decoded JWT payload and may
be absent, so all fields are optional here. -/
structure AuthenticatedUser where
  userId : Option String
  userEmail : Option String
  adminScopes : Option (List String)
  identifiers : Option (List Identifier)
  groups : Option (List GroupObj)
  role : Option String
deriving Repr, DecidableEq

/-- The claims object obtained from `JSON.parse(atob(jwt.split('.')[1]))`:
the fields that `refreshJwt` reads off it, each possibly `undefined`. -/
structure JwtPayload where
  userId : Option String
  userEmail : Option String
  adminScopes : Option (List String)
  identifiers : Option (List Identifier)
  groups : Option (List GroupObj)
  role : Option String
deriving Repr, DecidableEq

/-- `VortexConfig.jwtBackoff` (types.ts) with all fields filled in by the
provider's defaulting (VortexProvider.tsx lines 81-87). -/
structure JwtBackoffConfig where
  initialDelayMs : Nat
  maxDelayMs : Nat
  multiplier : Nat
  maxRetries : Nat
deriving Repr, DecidableEq

/-- Default backoff configuration (VortexProvider.tsx lines 82-85). -/
def defaultJwtBackoff : JwtBackoffConfig :=
  { initialDelayMs := 1000, maxDelayMs := 60000, multiplier := 2, maxRetries := 5 }

/-- `VortexState` (VortexProvider.tsx lines 18-25). -/
structure VortexState where
  jwt : Option String
  user : Option AuthenticatedUser
  isLoading : Bool
  error : Option String
  jwtRetryCount : Nat
  jwtRetryDelayMs : Nat
deriving Repr, DecidableEq

/-- `VortexAction` (VortexProvider.tsx lines 27-33). -/
inductive VortexAction where
  | setLoading (payload : Bool)
  | setJwt (jwt : String) (user : Option AuthenticatedUser)
  | setError (payload : Option String)
  | clearAuth
  | incrementRetry (payload : Nat)
  | resetRetry
deriving Repr, DecidableEq

/-- `initialState` (VortexProvider.tsx lines 35-42). -/
def initialState : VortexState :=
  { jwt := none, user := none, isLoading := false, error := none,
    jwtRetryCount := 0, jwtRetryDelayMs := 0 }

/-- `vortexReducer` (VortexProvider.tsx lines 44-69). -/
def vortexReducer (state : VortexState) (action : VortexAction) : VortexState :=
  match action with
  | .setLoading b => { state with isLoading := b }
  | .setJwt jwt user =>
      { state with
          jwt := some jwt, user := user, isLoading := false,
          error := none, jwtRetryCount := 0, jwtRetryDelayMs := 0 }
  | .setError e => { state with error := e, isLoading := false }
  | .clearAuth =>
      { state with
          jwt := none, user := none, error := none,
          jwtRetryCount := 0, jwtRetryDelayMs := 0 }
  | .incrementRetry d =>
      { state with jwtRetryCount := state.jwtRetryCount + 1, jwtRetryDelayMs := d }
  | .resetRetry => { state with jwtRetryCount := 0, jwtRetryDelayMs := 0 }

/-- JS `a || b` on possibly-undefined object/array values: `undefined`
falls through to the right operand (`payload.groups || defaultGroups`,
VortexProvider.tsx line 161). A present empty array is truthy and is kept. -/
def jsOrOpt {α : Type} (a b : Option α) : Option α :=
  match a with
  | some x => some x
  | none => b

/-- JS `String.prototype.split` with a one-character separator, on
character lists: every separator occurrence cuts, and `""` splits to
`[""]`.  The accumulator carries the current segment reversed. -/
def splitOnCharAux (c : Char) : List Char → List Char → List (List Char)
  | [], acc => [acc.reverse]
  | x :: xs, acc =>
    if x = c then acc.reverse :: splitOnCharAux c xs []
    else splitOnCharAux c xs (x :: acc)

/-- `jwt.split('.')` (VortexProvider.tsx line 154). -/
def splitOnDot (s : String) : List String :=
  (splitOnCharAux '.' s.data []).map String.mk

/-- The JWT-decoding step of `refreshJwt` (VortexProvider.tsx lines
151-166): split the token on dots, take segment 1, run it through the
platform decode (`JSON.parse ∘ atob`, which throws on malformed base64 or
JSON and is modelled by the partial function `parsePayload`), and build the
user object.  Any failure is swallowed by the surrounding try/catch and
leaves `user` at `null`. -/
def decodeJwtUser (parsePayload : String → Option JwtPayload)
    (defaultGroups : Option (List GroupObj)) (jwt : String) :
    Option AuthenticatedUser :=
  match (splitOnDot jwt)[1]? with
  | none => none
  | some seg =>
    match parsePayload seg with
    | none => none
    | some p =>
      some { userId := p.userId, userEmail := p.userEmail,
             adminScopes := p.adminScopes, identifiers := p.identifiers,
             groups := jsOrOpt p.groups defaultGroups, role := p.role }

/-- State effect of the success path of `refreshJwt` (VortexProvider.tsx
line 168): dispatch SET_JWT with the raw token and the (possibly absent)
decoded user. -/
def refreshJwtSuccessState (parsePayload : String → Option JwtPayload)
    (defaultGroups : Option (List GroupObj)) (s : VortexState) (jwt : String) :
    VortexState :=
  vortexReducer s (.setJwt jwt (decodeJwtUser parsePayload defaultGroups jwt))

/-- State effect of the catch block of `refreshJwt` (VortexProvider.tsx
lines 179-215).  Returns the new state together with `some delay` when a
retry is scheduled after `delay` milliseconds, or `none` when the failure
is terminal (max retries exceeded: SET_ERROR then RESET_RETRY, no timer). -/
def refreshJwtFailure (cfg : JwtBackoffConfig) (err : String) (s : VortexState) :
    VortexState × Option Nat :=
  if s.jwtRetryCount < cfg.maxRetries then
    let nextDelay := min (cfg.initialDelayMs * cfg.multiplier ^ s.jwtRetryCount)
      cfg.maxDelayMs
    (vortexReducer s (.incrementRetry nextDelay), some nextDelay)
  else
    (vortexReducer (vortexReducer s (.setError (some err))) .resetRetry, none)

/-- One whole failed renewal attempt: `refreshJwt` first dispatches
SET_LOADING true (VortexProvider.tsx line 143), then the gateway call
rejects and the catch block runs. -/
def failedRenewalAttempt (cfg : JwtBackoffConfig) (err : String)
    (s : VortexState) : VortexState × Option Nat :=
  refreshJwtFailure cfg err (vortexReducer s (.setLoading true))

/-- A run of `n` consecutive failed renewal attempts starting from
`initialState`; returns the final state and the list of scheduled retry
delays in order. -/
def runFailures (cfg : JwtBackoffConfig) (err : String) : Nat → VortexState × List Nat
  | 0 => (initialState, [])
  | n + 1 =>
    let prev := runFailures cfg err n
    let step := failedRenewalAttempt cfg err prev.1
    (step.1, prev.2 ++ step.2.toList)

/-! ### Remote call gateway: request headers (`apiCall`) -/

/-- A JS object with string keys and string values, in property-insertion
order (how `fetch` receives a headers literal). -/
abbrev HeaderMap : Type := List (String × String)

/-- JS property assignment semantics used by object spread: an existing key
is overwritten in place, a new key is appended. -/
def objSet (obj : HeaderMap) (k v : String) : HeaderMap :=
  if obj.any (fun p => p.1 = k) then
    obj.map (fun p => if p.1 = k then (k, v) else p)
  else
    obj ++ [(k, v)]

/-- JS object spread `{ ...base, ...extra }`: later properties win. -/
def objSpread (base extra : HeaderMap) : HeaderMap :=
  extra.foldl (fun acc p => objSet acc p.1 p.2) base

/-- The caller-supplied `RequestInit` options of `apiCall`: the fields the
repository actually passes (`method`, `body`, `headers`), each optional. -/
structure RequestInit where
  method : Option String := none
  body : Option String := none
  headers : Option HeaderMap := none

/-- The headers of the request that `apiCall` hands to `fetch`
(VortexProvider.tsx lines 110-116).  The literal is
`{ headers: { 'Content-Type': 'application/json', ...options.headers }, ...options }`:
the inner spread merges caller headers over the default, but the outer
`...options` spread comes after the `headers:` entry, so whenever the
caller's options carry a `headers` property it overwrites the merged
object wholesale. -/
def fetchRequestHeaders (options : RequestInit) : HeaderMap :=
  let merged := objSpread [("Content-Type", "application/json")]
    (options.headers.getD [])
  match options.headers with
  | some h => h
  | none => merged

/-- Does a header map carry a given header name? -/
def hasHeader (hs : HeaderMap) (k : String) : Bool :=
  hs.any (fun p => p.1 = k)

/-! ### Resource facade: loading/error keys (`useInvitations`) -/

/-- `InvitationTarget['type']` (types.ts): `'email' | 'username' | 'phoneNumber'`. -/
inductive TargetType where
  | email
  | username
  | phoneNumber
deriving Repr, DecidableEq

/-- The string interpolated into the key for a target type. -/
def TargetType.render : TargetType → String
  | .email => "email"
  | .username => "username"
  | .phoneNumber => "phoneNumber"

/-- useInvitations key for `getInvitationsByTarget` (part line 27). -/
def getByTargetKey (targetType : TargetType) (targetValue : String) : String :=
  "getByTarget-" ++ targetType.render ++ "-" ++ targetValue

/-- useInvitations key for `getInvitation` (line 44). -/
def getKey (invitationId : String) : String :=
  "get-" ++ invitationId

/-- useInvitations key for `revokeInvitation` (line 61). -/
def revokeKey (invitationId : String) : String :=
  "revoke-" ++ invitationId

/-- useInvitations key for `acceptInvitations` (line 80):
`accept-${invitationIds.join(',')}`. -/
def acceptKey (invitationIds : List String) : String :=
  "accept-" ++ String.intercalate "," invitationIds

/-- useInvitations key for `getInvitationsByGroup` (line 97). -/
def getByGroupKey (groupType groupId : String) : String :=
  "getByGroup-" ++ groupType ++ "-" ++ groupId

/-- useInvitations key for `deleteInvitationsByGroup` (line 114). -/
def deleteByGroupKey (groupType groupId : String) : String :=
  "deleteByGroup-" ++ groupType ++ "-" ++ groupId

/-- useInvitations key for `reinvite` (line 130). -/
def reinviteKey (invitationId : String) : String :=
  "reinvite-" ++ invitationId

/-- The operation-name prefix of a key: its characters up to the first dash. -/
def keyOpName (key : String) : List Char :=
  key.data.takeWhile (fun c => c ≠ '-')

/-! ### Timers: the single `refreshTimerRef` slot and the armed timers -/

/-- The timer environment: `pending` is the list of armed, not-yet-fired
timeout ids; `ref` is the value of `refreshTimerRef.current`; `nextId`
feeds fresh ids to `setTimeout`. -/
structure TimerSys where
  pending : List Nat
  ref : Option Nat
  nextId : Nat
deriving Repr, DecidableEq

/-- `if (refreshTimerRef.current) clearTimeout(refreshTimerRef.current)`:
disarm the referenced timer (if any) but leave the ref itself. -/
def clearTimeoutIfSet (t : TimerSys) : TimerSys :=
  match t.ref with
  | some id => { t with pending := t.pending.erase id }
  | none => t

/-- `refreshTimerRef.current = setTimeout(...)`: arm a fresh timer and
store its handle in the ref. -/
def armTimer (t : TimerSys) : TimerSys :=
  { pending := t.pending ++ [t.nextId], ref := some t.nextId,
    nextId := t.nextId + 1 }

/-- Timer effect of the success path of `refreshJwt` (VortexProvider.tsx
lines 171-178): when a refresh interval is configured (non-zero), cancel
the pending timer if the ref is set and arm the auto-renewal timer;
when the interval is 0 (disabled), touch nothing. -/
def successSchedule (refreshJwtInterval : Nat) (t : TimerSys) : TimerSys :=
  let t1 := if refreshJwtInterval ≠ 0 then clearTimeoutIfSet t else t
  if refreshJwtInterval ≠ 0 then armTimer t1 else t1

/-- Timer effect of the retry branch of the catch block (VortexProvider.tsx
lines 202-205): cancel the pending timer if the ref is set, then arm the
backoff retry timer. -/
def retrySchedule (t : TimerSys) : TimerSys :=
  armTimer (clearTimeoutIfSet t)

/-- The provider's full mutable state: reducer state plus timer system. -/
structure Machine where
  st : VortexState
  tmr : TimerSys
deriving Repr, DecidableEq

/-- The provider's state at mount. -/
def initMachine : Machine :=
  { st := initialState, tmr := { pending := [], ref := none, nextId := 0 } }

/-- `clearAuth` (VortexProvider.tsx lines 218-224): cancel the pending
timer and null the ref (when set), then dispatch CLEAR_AUTH. -/
def clearAuthOp (m : Machine) : Machine :=
  let t :=
    match m.tmr.ref with
    | some id =>
        { pending := m.tmr.pending.erase id, ref := none,
          nextId := m.tmr.nextId }
    | none => m.tmr
  { st := vortexReducer m.st .clearAuth, tmr := t }

/-- The events the provider's state reacts to.  `success` is the success
path of `refreshJwt` (SET_JWT + rescheduling), `failRetry`/`failTerminal`
the two branches of its catch block, `loading` the SET_LOADING dispatch,
`clear` the `clearAuth` operation, and `fire` the event-loop delivering an
armed timer (the timeout stops being pending when its callback runs). -/
inductive MStep (refreshJwtInterval : Nat) (cfg : JwtBackoffConfig) :
    Machine → Machine → Prop where
  | loading (m : Machine) (b : Bool) :
      MStep refreshJwtInterval cfg m
        { st := vortexReducer m.st (.setLoading b), tmr := m.tmr }
  | success (m : Machine) (jwt : String) (user : Option AuthenticatedUser) :
      MStep refreshJwtInterval cfg m
        { st := vortexReducer m.st (.setJwt jwt user),
          tmr := successSchedule refreshJwtInterval m.tmr }
  | failRetry (m : Machine) (err : String)
      (h : m.st.jwtRetryCount < cfg.maxRetries) :
      MStep refreshJwtInterval cfg m
        { st := (refreshJwtFailure cfg err m.st).1, tmr := retrySchedule m.tmr }
  | failTerminal (m : Machine) (err : String)
      (h : ¬ m.st.jwtRetryCount < cfg.maxRetries) :
      MStep refreshJwtInterval cfg m
        { st := (refreshJwtFailure cfg err m.st).1, tmr := m.tmr }
  | clear (m : Machine) :
      MStep refreshJwtInterval cfg m (clearAuthOp m)
  | fire (m : Machine) (id : Nat) (h : id ∈ m.tmr.pending) :
      MStep refreshJwtInterval cfg m
        { st := m.st, tmr := { m.tmr with pending := m.tmr.pending.erase id } }

/-- States reachable from mount under the provider's events. -/
inductive Reachable (refreshJwtInterval : Nat) (cfg : JwtBackoffConfig) :
    Machine → Prop where
  | init : Reachable refreshJwtInterval cfg initMachine
  | step {m m' : Machine} (hm : Reachable refreshJwtInterval cfg m)
      (hs : MStep refreshJwtInterval cfg m m') :
      Reachable refreshJwtInterval cfg m'

/-- The single-pending-timer invariant: no armed timer at all, or exactly
one, which is the one the ref points at. -/
def TimerInv (m : Machine) : Prop :=
  m.tmr.pending = [] ∨ ∃ id, m.tmr.pending = [id] ∧ m.tmr.ref = some id

/-! ### Context value -/

/-- JS truthiness of a `string | null` value: `null` and the empty string
are falsy, every other string is truthy. -/
def jsTruthyStr : Option String → Bool
  | none => false
  | some s => !s.isEmpty

/-- `isAuthenticated: !!state.jwt` in the context value
(VortexProvider.tsx line 298). -/
def ctxIsAuthenticated (s : VortexState) : Bool :=
  jsTruthyStr s.jwt

/-! ## Helper lemmas -/

/-- Two strings with the same character data are equal. -/
theorem string_eq_of_data {s t : String} (h : s.data = t.data) : s = t := by
  cases s
  cases t
  cases h
  rfl

/-- Splitting at a separator that occurs in neither left part is
unambiguous. -/
theorem sep_append_inj {α : Type} (c : α) :
    ∀ (l1 l2 r1 r2 : List α), c ∉ l1 → c ∉ l2 →
      l1 ++ c :: r1 = l2 ++ c :: r2 → l1 = l2 ∧ r1 = r2 := by
  intro l1
  induction l1 with
  | nil =>
    intro l2 r1 r2 _ h2 h
    cases l2 with
    | nil => simpa using h
    | cons b l2T =>
      simp only [List.nil_append, List.cons_append, List.cons.injEq] at h
      exact absurd (h.1 ▸ List.mem_cons_self b l2T) h2
  | cons a l1T ih =>
    intro l2 r1 r2 h1 h2 h
    cases l2 with
    | nil =>
      simp only [List.nil_append, List.cons_append, List.cons.injEq] at h
      exact absurd (h.1 ▸ List.mem_cons_self a l1T) h1
    | cons b l2T =>
      simp only [List.cons_append, List.cons.injEq] at h
      obtain ⟨rfl, hrest⟩ := h
      have h1T : c ∉ l1T := fun hm => h1 (List.mem_cons_of_mem a hm)
      have h2T : c ∉ l2T := fun hm => h2 (List.mem_cons_of_mem a hm)
      obtain ⟨hl, hr⟩ := ih l2T r1 r2 h1T h2T hrest
      exact ⟨by rw [hl], hr⟩

/-- A key of shape `p ++ mid ++ "-" ++ tail` determines `mid` and `tail`
when `mid` contains no dash. -/
theorem dash_key_inj (p t1 v1 t2 v2 : String)
    (h1 : '-' ∉ t1.data) (h2 : '-' ∉ t2.data)
    (h : p ++ t1 ++ "-" ++ v1 = p ++ t2 ++ "-" ++ v2) : t1 = t2 ∧ v1 = v2 := by
  have hd : p.data ++ (t1.data ++ '-' :: v1.data)
      = p.data ++ (t2.data ++ '-' :: v2.data) := by
    have hdata := congrArg String.data h
    simpa [String.data_append, List.append_assoc,
      show ("-" : String).data = ['-'] from rfl] using hdata
  have hc := List.append_cancel_left hd
  obtain ⟨hl, hr⟩ := sep_append_inj '-' t1.data t2.data v1.data v2.data h1 h2 hc
  exact ⟨string_eq_of_data hl, string_eq_of_data hr⟩

/-- A key of shape `p ++ tail` determines `tail`. -/
theorem prefix_key_inj (p a b : String) (h : p ++ a = p ++ b) : a = b := by
  have hd : p.data ++ a.data = p.data ++ b.data := by
    have hdata := congrArg String.data h
    simpa [String.data_append] using hdata
  exact string_eq_of_data (List.append_cancel_left hd)

/-- The rendered target type never contains a dash. -/
theorem targetType_render_dash_free (t : TargetType) : '-' ∉ t.render.data := by
  cases t <;> decide

/-- Rendering of target types is injective. -/
theorem targetType_render_inj {a b : TargetType} (h : a.render = b.render) :
    a = b := by
  cases a <;> cases b <;> first
    | rfl
    | exact absurd h (by decide)

/-- Boolean string non-emptiness test as an inequality. -/
theorem not_isEmpty_iff_ne (s : String) : (!s.isEmpty) = true ↔ s ≠ "" := by
  rw [Bool.not_eq_true', ← Bool.not_eq_true]
  exact not_congr (String.isEmpty_iff s)


/-! ## Claim theorems -/

/-- C2: for every backoff configuration and every failure arriving with
attempt count `a = jwtRetryCount`, a retry is scheduled iff `a < maxRetries`;
when it is, its delay is `min(initialDelayMs * multiplier ^ a, maxDelayMs)`;
when it is not, the failure is terminal (no timer, error surfaced). -/
theorem backoff_delay_and_retry_decision (cfg : JwtBackoffConfig) (err : String)
    (s : VortexState) :
    ((refreshJwtFailure cfg err s).2.isSome ↔ s.jwtRetryCount < cfg.maxRetries)
    ∧ (s.jwtRetryCount < cfg.maxRetries →
        (refreshJwtFailure cfg err s).2 =
          some (min (cfg.initialDelayMs * cfg.multiplier ^ s.jwtRetryCount)
            cfg.maxDelayMs))
    ∧ (¬ s.jwtRetryCount < cfg.maxRetries →
        (refreshJwtFailure cfg err s).2 = none
        ∧ (refreshJwtFailure cfg err s).1.error = some err) := by
  by_cases h : s.jwtRetryCount < cfg.maxRetries <;>
    simp [refreshJwtFailure, h, vortexReducer]

/-- Witness for C2 at the default configuration: from attempt count 0 the
scheduled delay is 1000 ms, and after five consecutive failures (attempt
count 5) the failure is terminal. -/
theorem backoff_delay_and_retry_decision_witness :
    (refreshJwtFailure defaultJwtBackoff "boom" initialState).2 = some 1000
    ∧ (refreshJwtFailure defaultJwtBackoff "boom"
        (runFailures defaultJwtBackoff "boom" 5).1).2 = none := by
  constructor
  · have h := (backoff_delay_and_retry_decision defaultJwtBackoff "boom"
      initialState).2.1 (by decide)
    simpa using h
  · exact ((backoff_delay_and_retry_decision defaultJwtBackoff "boom"
      (runFailures defaultJwtBackoff "boom" 5).1).2.2 (by decide)).1

/-- C1 counterexample: under the default backoff configuration the fifth
consecutive failure is NOT terminal — after it the consumer-visible error
is still null and the retry counter stands at 5, not 0 (the fifth failure
schedules a fifth retry, of 16000 ms; only the sixth failure is terminal). -/
theorem fifth_failure_not_terminal_counterexample :
    (runFailures defaultJwtBackoff "network error" 5).1.error = none
    ∧ (runFailures defaultJwtBackoff "network error" 5).1.jwtRetryCount = 5 := by
  decide

set_option maxRecDepth 4096 in
/-- C1 (amended): starting from retry count 0 under the default backoff
configuration, the delays of the first three scheduled retries are 1000,
2000 and 4000 ms; the error field is null after each of the first five
failures; and after the sixth failure the error is set and the retry
counter returns to 0. -/
theorem default_backoff_failure_run (err : String) :
    (runFailures defaultJwtBackoff err 3).2 = [1000, 2000, 4000]
    ∧ ((runFailures defaultJwtBackoff err 1).1.error = none
      ∧ (runFailures defaultJwtBackoff err 2).1.error = none
      ∧ (runFailures defaultJwtBackoff err 3).1.error = none
      ∧ (runFailures defaultJwtBackoff err 4).1.error = none
      ∧ (runFailures defaultJwtBackoff err 5).1.error = none)
    ∧ (runFailures defaultJwtBackoff err 6).1.error = some err
    ∧ (runFailures defaultJwtBackoff err 6).1.jwtRetryCount = 0 := by
  refine ⟨?_, ⟨?_, ?_, ?_, ?_, ?_⟩, ?_, ?_⟩ <;> rfl

/-- C6: SET_JWT resets the retry counter to 0 from any prior state;
clearAuth resets it to 0; a non-terminal failed renewal increments it by
exactly one. -/
theorem retry_counter_reset_and_increment :
    (∀ (s : VortexState) (jwt : String) (user : Option AuthenticatedUser),
      (vortexReducer s (.setJwt jwt user)).jwtRetryCount = 0)
    ∧ (∀ m : Machine, (clearAuthOp m).st.jwtRetryCount = 0)
    ∧ (∀ (cfg : JwtBackoffConfig) (err : String) (s : VortexState),
      s.jwtRetryCount < cfg.maxRetries →
        (refreshJwtFailure cfg err s).1.jwtRetryCount = s.jwtRetryCount + 1) := by
  refine ⟨?_, ?_, ?_⟩
  · intro s jwt user
    simp [vortexReducer]
  · intro m
    simp [clearAuthOp, vortexReducer]
  · intro cfg err s h
    simp [refreshJwtFailure, h, vortexReducer]

/-- Witness for C6: a successful renewal from a state with retry counter 3
resets it to 0, and a non-terminal failure from the initial state raises
the counter to 1. -/
theorem retry_counter_reset_and_increment_witness :
    (vortexReducer
      { initialState with jwtRetryCount := 3 } (.setJwt "tok" none)).jwtRetryCount = 0
    ∧ (refreshJwtFailure defaultJwtBackoff "e" initialState).1.jwtRetryCount = 0 + 1 := by
  constructor
  · exact retry_counter_reset_and_increment.1
      { initialState with jwtRetryCount := 3 } "tok" none
  · have h := retry_counter_reset_and_increment.2.2 defaultJwtBackoff "e"
      initialState (by decide)
    simpa using h

/-- C9: the CLEAR_AUTH transition resets exactly jwt, user, error and the
retry fields, leaving isLoading untouched: the cleared state is the
anonymous state with the prior isLoading flag. -/
theorem clear_auth_preserves_isLoading (s : VortexState) :
    vortexReducer s .clearAuth =
      { jwt := none, user := none, isLoading := s.isLoading, error := none,
        jwtRetryCount := 0, jwtRetryDelayMs := 0 } := by
  simp [vortexReducer]

/-- C8: `clearAuth` is idempotent — running it twice from any provider
state (reducer state plus timer system) yields exactly the state reached
by running it once. -/
theorem clearAuth_idempotent (m : Machine) :
    clearAuthOp (clearAuthOp m) = clearAuthOp m := by
  cases href : m.tmr.ref <;> simp [clearAuthOp, href, vortexReducer]

/-- C3 counterexample: a caller-supplied headers object does not merge with
the default — it replaces it wholesale (the outer `...options` spread wins
over the `headers:` entry), so this request carries no Content-Type header
at all even though the caller only added an unrelated header. -/
theorem caller_headers_drop_content_type_counterexample :
    fetchRequestHeaders { headers := some [("X-Custom", "1")] }
      = [("X-Custom", "1")]
    ∧ hasHeader (fetchRequestHeaders { headers := some [("X-Custom", "1")] })
        "Content-Type" = false := by
  exact ⟨rfl, rfl⟩

/-- C3 (amended): when the caller supplies no headers, the request carries
exactly the default `Content-Type: application/json` header; when the
caller supplies a headers object, it replaces the default wholesale, so
the default Content-Type reaches the request only if the caller includes
one itself. -/
theorem fetch_headers_default_or_replaced (options : RequestInit) :
    (options.headers = none →
      fetchRequestHeaders options = [("Content-Type", "application/json")])
    ∧ (∀ hs, options.headers = some hs → fetchRequestHeaders options = hs) := by
  constructor
  · intro hnone
    simp [fetchRequestHeaders, objSpread, hnone]
  · intro hs hsome
    simp [fetchRequestHeaders, hsome]

/-- Witness for C3 (amended): with no caller options the default header is
sent; a caller-supplied Content-Type replaces the default. -/
theorem fetch_headers_default_or_replaced_witness :
    fetchRequestHeaders {} = [("Content-Type", "application/json")]
    ∧ fetchRequestHeaders { headers := some [("Content-Type", "text/plain")] }
      = [("Content-Type", "text/plain")] :=
  ⟨(fetch_headers_default_or_replaced {}).1 rfl,
    (fetch_headers_default_or_replaced
      { headers := some [("Content-Type", "text/plain")] }).2
      [("Content-Type", "text/plain")] rfl⟩

/-- C5: when the delivered token's payload cannot be decoded, the decode
path yields no identity instead of throwing (the embedding is a total
function whose failure value is `none`), and the renewal still completes
as a success: the raw jwt is installed, the user is absent, the error
stays null and the retry state resets. -/
theorem decode_failure_preserves_credential
    (parsePayload : String → Option JwtPayload)
    (defaultGroups : Option (List GroupObj)) (s : VortexState) (tok : String)
    (hdec : decodeJwtUser parsePayload defaultGroups tok = none) :
    (refreshJwtSuccessState parsePayload defaultGroups s tok).user = none
    ∧ (refreshJwtSuccessState parsePayload defaultGroups s tok).jwt = some tok
    ∧ (refreshJwtSuccessState parsePayload defaultGroups s tok).error = none
    ∧ (refreshJwtSuccessState parsePayload defaultGroups s tok).jwtRetryCount = 0
    ∧ (refreshJwtSuccessState parsePayload defaultGroups s tok).isLoading = false := by
  simp [refreshJwtSuccessState, vortexReducer, hdec]

/-- Witness for C5: a token with no second segment (no dot at all) fails
to decode, yet is installed as the credential with no user and no error. -/
theorem decode_failure_preserves_credential_witness :
    (refreshJwtSuccessState (fun _ => none) none initialState "malformed").user = none
    ∧ (refreshJwtSuccessState (fun _ => none) none initialState "malformed").jwt
      = some "malformed"
    ∧ (refreshJwtSuccessState (fun _ => none) none initialState "malformed").error = none
    ∧ (refreshJwtSuccessState (fun _ => none) none initialState
        "malformed").jwtRetryCount = 0
    ∧ (refreshJwtSuccessState (fun _ => none) none initialState
        "malformed").isLoading = false :=
  decode_failure_preserves_credential (fun _ => none) none initialState
    "malformed" (by decide)

/-- C10 counterexample: `isAuthenticated` is `!!state.jwt`, and the empty
string is falsy in JS, so a state whose jwt is the (non-null) empty string
reports isAuthenticated = false: the "iff non-null" claim fails. -/
theorem isAuthenticated_empty_token_counterexample :
    (vortexReducer initialState (.setJwt "" none)).jwt = some ""
    ∧ ctxIsAuthenticated (vortexReducer initialState (.setJwt "" none)) = false := by
  decide

/-- C10 (amended): isAuthenticated is true iff the jwt credential is
non-null and non-empty; in particular a renewal that delivers a non-empty
token whose payload fails to decode leaves the context authenticated with
a null user. -/
theorem isAuthenticated_iff_nonempty_jwt (s : VortexState) :
    (ctxIsAuthenticated s = true ↔ ∃ j, s.jwt = some j ∧ j ≠ "")
    ∧ ∀ (parsePayload : String → Option JwtPayload)
        (defaultGroups : Option (List GroupObj)) (tok : String),
        tok ≠ "" → decodeJwtUser parsePayload defaultGroups tok = none →
          ctxIsAuthenticated
            (refreshJwtSuccessState parsePayload defaultGroups s tok) = true
          ∧ (refreshJwtSuccessState parsePayload defaultGroups s tok).user = none := by
  constructor
  · cases hj : s.jwt with
    | none => simp [ctxIsAuthenticated, jsTruthyStr, hj]
    | some j =>
      simp only [ctxIsAuthenticated, jsTruthyStr, hj]
      rw [not_isEmpty_iff_ne]
      constructor
      · intro hne
        exact ⟨j, rfl, hne⟩
      · rintro ⟨j2, hj2, hne⟩
        cases hj2
        exact hne
  · intro parsePayload defaultGroups tok htok hdec
    constructor
    · simp only [refreshJwtSuccessState, vortexReducer, ctxIsAuthenticated,
        jsTruthyStr]
      rw [not_isEmpty_iff_ne]
      exact htok
    · simp [refreshJwtSuccessState, vortexReducer, hdec]

/-- Witness for C10 (amended): a non-empty undecodable token yields an
authenticated context with no user. -/
theorem isAuthenticated_iff_nonempty_jwt_witness :
    ctxIsAuthenticated
      (refreshJwtSuccessState (fun _ => none) none initialState "abc") = true
    ∧ (refreshJwtSuccessState (fun _ => none) none initialState "abc").user
      = none :=
  (isAuthenticated_iff_nonempty_jwt initialState).2 (fun _ => none) none "abc"
    (by decide) (by decide)

/-- C4 counterexample: distinct argument values can compute the same
loading/error key.  `getInvitationsByGroup('a','b-c')` and
`getInvitationsByGroup('a-b','c')` share the key `getByGroup-a-b-c`, and
`acceptInvitations(['a,b'])` and `acceptInvitations(['a','b'])` share the
key `accept-a,b`, because the dash and comma separators also occur in the
argument values. -/
theorem invitation_key_collision_counterexample :
    getByGroupKey "a" "b-c" = getByGroupKey "a-b" "c"
    ∧ ("a", "b-c") ≠ ("a-b", "c")
    ∧ acceptKey ["a,b"] = acceptKey ["a", "b"]
    ∧ ["a,b"] ≠ ["a", "b"] := by
  refine ⟨by decide, by decide, by decide, by decide⟩

/-- C4 (amended): each key is a deterministic function of the operation
name and arguments, and the operation name is always recoverable as the
characters before the first dash, so keys of distinct operations never
collide.  Distinct arguments give distinct keys for the id-based
operations (get/revoke/reinvite) and for the target lookup (whose type tag
is one of three fixed dash-free words), and for the group operations
provided the group type contains no dash; argument values containing the
separator characters (a dash in the group type, a comma inside an accepted
invitation id) can make distinct argument lists collide. -/
theorem invitation_keys_injectivity :
    (∀ id1 id2 : String, getKey id1 = getKey id2 ↔ id1 = id2)
    ∧ (∀ id1 id2 : String, revokeKey id1 = revokeKey id2 ↔ id1 = id2)
    ∧ (∀ id1 id2 : String, reinviteKey id1 = reinviteKey id2 ↔ id1 = id2)
    ∧ (∀ (t1 t2 : TargetType) (v1 v2 : String),
      getByTargetKey t1 v1 = getByTargetKey t2 v2 ↔ (t1 = t2 ∧ v1 = v2))
    ∧ (∀ gt1 gi1 gt2 gi2 : String, '-' ∉ gt1.data → '-' ∉ gt2.data →
      (getByGroupKey gt1 gi1 = getByGroupKey gt2 gi2 ↔ (gt1 = gt2 ∧ gi1 = gi2)))
    ∧ (∀ gt1 gi1 gt2 gi2 : String, '-' ∉ gt1.data → '-' ∉ gt2.data →
      (deleteByGroupKey gt1 gi1 = deleteByGroupKey gt2 gi2
        ↔ (gt1 = gt2 ∧ gi1 = gi2)))
    ∧ (∀ (tid gt gi : String) (tt : TargetType) (ids : List String),
      keyOpName (getKey tid) = "get".data
      ∧ keyOpName (revokeKey tid) = "revoke".data
      ∧ keyOpName (reinviteKey tid) = "reinvite".data
      ∧ keyOpName (getByTargetKey tt gt) = "getByTarget".data
      ∧ keyOpName (getByGroupKey gt gi) = "getByGroup".data
      ∧ keyOpName (deleteByGroupKey gt gi) = "deleteByGroup".data
      ∧ keyOpName (acceptKey ids) = "accept".data) := by
  refine ⟨?_, ?_, ?_, ?_, ?_, ?_, ?_⟩
  · intro id1 id2
    exact ⟨fun h => prefix_key_inj "get-" id1 id2 h, fun h => by rw [h]⟩
  · intro id1 id2
    exact ⟨fun h => prefix_key_inj "revoke-" id1 id2 h, fun h => by rw [h]⟩
  · intro id1 id2
    exact ⟨fun h => prefix_key_inj "reinvite-" id1 id2 h, fun h => by rw [h]⟩
  · intro t1 t2 v1 v2
    constructor
    · intro h
      obtain ⟨hr, hv⟩ := dash_key_inj "getByTarget-" t1.render v1 t2.render v2
        (targetType_render_dash_free t1) (targetType_render_dash_free t2) h
      exact ⟨targetType_render_inj hr, hv⟩
    · rintro ⟨rfl, rfl⟩
      rfl
  · intro gt1 gi1 gt2 gi2 h1 h2
    constructor
    · intro h
      exact dash_key_inj "getByGroup-" gt1 gi1 gt2 gi2 h1 h2 h
    · rintro ⟨rfl, rfl⟩
      rfl
  · intro gt1 gi1 gt2 gi2 h1 h2
    constructor
    · intro h
      exact dash_key_inj "deleteByGroup-" gt1 gi1 gt2 gi2 h1 h2 h
    · rintro ⟨rfl, rfl⟩
      rfl
  · intro tid gt gi tt ids
    refine ⟨rfl, rfl, rfl, ?_, rfl, rfl, rfl⟩
    cases tt <;> rfl

/-- Witness for C4 (amended): two concrete group keys with dash-free group
types are equal exactly when their arguments are. -/
theorem invitation_keys_injectivity_witness :
    (getByGroupKey "workspace" "g1" = getByGroupKey "workspace" "g1"
      ↔ ("workspace" = "workspace" ∧ "g1" = "g1")) :=
  invitation_keys_injectivity.2.2.2.2.1 "workspace" "g1" "workspace" "g1"
    (by decide) (by decide)

/-- `clearTimeout` on the referenced timer never changes the ref or the id
counter. -/
theorem clearTimeoutIfSet_ref_nextId (t : TimerSys) :
    (clearTimeoutIfSet t).ref = t.ref ∧ (clearTimeoutIfSet t).nextId = t.nextId := by
  cases href : t.ref <;> simp [clearTimeoutIfSet, href]

/-- Under the single-timer invariant, cancelling the referenced timer
leaves no pending timer. -/
theorem clearTimeoutIfSet_pending_nil {t : TimerSys}
    (h : t.pending = [] ∨ ∃ id, t.pending = [id] ∧ t.ref = some id) :
    (clearTimeoutIfSet t).pending = [] := by
  unfold clearTimeoutIfSet
  rcases h with hnil | ⟨id, hp, hr⟩
  · cases href : t.ref <;> simp [hnil]
  · rw [hr]
    simp [hp]

/-- Arming after a cancel yields exactly one pending timer: the one the
ref now points at. -/
theorem armTimer_after_clear {t : TimerSys}
    (h : t.pending = [] ∨ ∃ id, t.pending = [id] ∧ t.ref = some id) :
    (armTimer (clearTimeoutIfSet t)).pending = [(clearTimeoutIfSet t).nextId]
    ∧ (armTimer (clearTimeoutIfSet t)).ref = some (clearTimeoutIfSet t).nextId := by
  unfold armTimer
  rw [clearTimeoutIfSet_pending_nil h]
  exact ⟨rfl, rfl⟩

/-- Every event of the provider preserves the single-pending-timer
invariant. -/
theorem timerInv_step {interval : Nat} {cfg : JwtBackoffConfig}
    {m m2 : Machine} (hinv : TimerInv m) (hs : MStep interval cfg m m2) :
    TimerInv m2 := by
  cases hs with
  | loading b => exact hinv
  | success jwt user =>
    unfold TimerInv at hinv ⊢
    simp only
    unfold successSchedule
    by_cases hI : interval ≠ 0
    · simp only [if_pos hI]
      obtain ⟨hp, hr⟩ := armTimer_after_clear hinv
      exact Or.inr ⟨(clearTimeoutIfSet m.tmr).nextId, hp, hr⟩
    · simp only [if_neg hI]
      exact hinv
  | failRetry err h =>
    unfold TimerInv at hinv ⊢
    simp only
    unfold retrySchedule
    obtain ⟨hp, hr⟩ := armTimer_after_clear hinv
    exact Or.inr ⟨(clearTimeoutIfSet m.tmr).nextId, hp, hr⟩
  | failTerminal err h => exact hinv
  | clear =>
    unfold TimerInv at hinv ⊢
    unfold clearAuthOp
    cases href : m.tmr.ref with
    | none =>
      rcases hinv with hnil | ⟨id, _, hr⟩
      · simp [href, hnil]
      · rw [href] at hr
        exact absurd hr (by simp)
    | some id =>
      rcases hinv with hnil | ⟨id2, hp, hr⟩
      · simp [href, hnil]
      · rw [href] at hr
        cases hr
        simp [href, hp]
  | fire id h =>
    unfold TimerInv at hinv ⊢
    simp only
    rcases hinv with hnil | ⟨id2, hp, hr⟩
    · rw [hnil] at h
      exact absurd h (List.not_mem_nil id)
    · rw [hp] at h
      rcases List.mem_singleton.mp h with rfl
      simp [hp]

/-- Every reachable provider state satisfies the single-pending-timer
invariant. -/
theorem reachable_timerInv {interval : Nat} {cfg : JwtBackoffConfig}
    {m : Machine} (h : Reachable interval cfg m) : TimerInv m := by
  induction h with
  | init => exact Or.inl rfl
  | step hm hs ih => exact timerInv_step ih hs

/-- C7: in every reachable provider state at most one renewal/retry timer
is pending (each scheduling action cancels the previously pending timer
before arming its own), and `clearAuth` cancels the pending timer without
arming a new one: afterwards nothing is pending and the ref is null. -/
theorem at_most_one_pending_timer {interval : Nat} {cfg : JwtBackoffConfig}
    {m : Machine} (h : Reachable interval cfg m) :
    m.tmr.pending.length ≤ 1
    ∧ (clearAuthOp m).tmr.pending = []
    ∧ (clearAuthOp m).tmr.ref = none := by
  have hinv := reachable_timerInv h
  refine ⟨?_, ?_, ?_⟩
  · rcases hinv with hnil | ⟨id, hp, _⟩
    · simp [hnil]
    · simp [hp]
  · unfold clearAuthOp
    cases href : m.tmr.ref with
    | none =>
      rcases hinv with hnil | ⟨id, _, hr⟩
      · simpa [href] using hnil
      · rw [href] at hr
        exact absurd hr (by simp)
    | some id =>
      rcases hinv with hnil | ⟨id2, hp, hr⟩
      · simp [href, hnil]
      · rw [href] at hr
        cases hr
        simp [href, hp]
  · unfold clearAuthOp
    cases href : m.tmr.ref <;> simp [href]

/-- Witness for C7: the state reached from mount by one failed renewal
(which schedules a retry timer) has at most one pending timer, and
clearAuth from there leaves none. -/
theorem at_most_one_pending_timer_witness :
    ({ st := (refreshJwtFailure defaultJwtBackoff "boom" initialState).1,
       tmr := retrySchedule initMachine.tmr } : Machine).tmr.pending.length ≤ 1
    ∧ (clearAuthOp
        { st := (refreshJwtFailure defaultJwtBackoff "boom" initialState).1,
          tmr := retrySchedule initMachine.tmr }).tmr.pending = []
    ∧ (clearAuthOp
        { st := (refreshJwtFailure defaultJwtBackoff "boom" initialState).1,
          tmr := retrySchedule initMachine.tmr }).tmr.ref = none :=
  at_most_one_pending_timer
    ((Reachable.step Reachable.init
      (MStep.failRetry initMachine "boom" (by decide))) :
      Reachable 1800000 defaultJwtBackoff
        { st := (refreshJwtFailure defaultJwtBackoff "boom" initialState).1,
          tmr := retrySchedule initMachine.tmr })
